import Mathlib

/-!
Shallow embedding of the plotly scikit-learn documentation repository.

The repository holds two tutorial artifacts:
* a Jupyter notebook comparing nested and non-nested cross-validation on
  the iris data set (NUM_TRIALS = 30 trials, GridSearchCV over p_grid with
  an inner KFold, cross_val_score with an outer KFold);
* a generated HTML post that calls cross_val_predict with a linear model
  on the Boston housing data and plots the predictions.

The scikit-learn library itself is external to the repository, so the
library calls are embedded here by their documented semantics, with the
numeric estimator scores kept abstract (as function parameters): the
tutorials treat the fitted models as sealed values, and every claim about them
is structural (loop counts, data flow, fold arithmetic, determinism).
-/

set_option autoImplicit false

namespace SckitDocs

/-- Splitter state of the scikit-learn KFold class as the notebook builds
it: number of splits, shuffle flag, and the optional random seed. A value
of none for random_state means the split draws on the global random
state of the process. -/
structure KFold where
  n_splits : Nat
  shuffle : Bool
  random_state : Option Nat
deriving DecidableEq, Repr

/-- Fold sizes used by the scikit-learn KFold splitter on n samples: the
first n mod k folds have one extra sample, the rest have size n div k. -/
def foldSizes (n k : Nat) : List Nat :=
  (List.range k).map (fun j => if j < n % k then n / k + 1 else n / k)

/-- Cut a list into consecutive chunks of the given sizes. -/
def chunksBySizes : List Nat → List Nat → List (List Nat)
  | _, [] => []
  | xs, s :: rest => xs.take s :: chunksBySizes (xs.drop s) rest

/-- Seed actually consumed by a splitter: its own random_state when set,
otherwise the ambient global seed. -/
def KFold.seedUsed (cv : KFold) (globalSeed : Nat) : Nat :=
  cv.random_state.getD globalSeed

/-- Test-fold index lists produced by KFold over n samples. The shuffle
permutation of the underlying numpy generator is abstracted as the
function perm from a seed and a length to an index list. -/
def KFold.splits (cv : KFold) (perm : Nat → Nat → List Nat)
    (globalSeed n : Nat) : List (List Nat) :=
  let idx := if cv.shuffle then perm (cv.seedUsed globalSeed) n else List.range n
  chunksBySizes idx (foldSizes n cv.n_splits)

/-- Test-fold index lists produced by KFold over an arbitrary index list,
as happens when an estimator re-splits the training part of an outer
fold. -/
def KFold.splitsOn (cv : KFold) (perm : Nat → Nat → List Nat)
    (globalSeed : Nat) (idx : List Nat) : List (List Nat) :=
  let base :=
    if cv.shuffle then (perm (cv.seedUsed globalSeed) idx.length).map (fun j => idx.getD j 0)
    else idx
  chunksBySizes base (foldSizes idx.length cv.n_splits)

/-- Indices of range n outside the given test fold: the training part of
a split. -/
def complementFold (n : Nat) (test : List Nat) : List Nat :=
  (List.range n).filter (fun j => decide (j ∉ test))

/-- Arithmetic mean of a list of rationals, as numpy mean computes it. -/
def listMean (xs : List ℚ) : ℚ := xs.sum / xs.length

/-! ### Basic lemmas about fold arithmetic -/

theorem chunksBySizes_length (xs : List Nat) (sizes : List Nat) :
    (chunksBySizes xs sizes).length = sizes.length := by
  induction sizes generalizing xs with
  | nil => rfl
  | cons s rest ih => simp [chunksBySizes, ih]

theorem foldSizes_length (n k : Nat) : (foldSizes n k).length = k := by
  simp [foldSizes]

theorem sum_ite_range (m q r : Nat) :
    ((List.range m).map (fun j => if j < r then q + 1 else q)).sum
      = m * q + min m r := by
  induction m with
  | zero => simp
  | succ m ih =>
      rw [List.range_succ, List.map_append, List.sum_append, ih]
      rcases Nat.lt_or_ge m r with h | h
      · simp only [List.map_cons, List.map_nil, List.sum_cons, List.sum_nil, if_pos h]
        rw [Nat.succ_mul]
        omega
      · simp only [List.map_cons, List.map_nil, List.sum_cons, List.sum_nil,
          if_neg (Nat.not_lt.mpr h)]
        rw [Nat.succ_mul]
        omega

theorem foldSizes_sum (n k : Nat) (hk : 0 < k) : (foldSizes n k).sum = n := by
  have h := sum_ite_range k (n / k) (n % k)
  have hmod : n % k < k := Nat.mod_lt _ hk
  rw [foldSizes, h, Nat.min_eq_right (Nat.le_of_lt hmod)]
  exact Nat.div_add_mod n k

theorem chunksBySizes_flatten_length (xs : List Nat) (sizes : List Nat) :
    (chunksBySizes xs sizes).flatten.length = min sizes.sum xs.length := by
  induction sizes generalizing xs with
  | nil => simp [chunksBySizes]
  | cons s rest ih =>
      simp only [chunksBySizes, List.flatten_cons, List.length_append, ih,
        List.length_take, List.length_drop, List.sum_cons]
      omega

/-! ### Maximum of a list of scores, as grid search selection uses it -/

/-- Maximum of a list of rational scores (0 on the empty list, never hit
by the notebook whose grid is non-empty). -/
def listMax : List ℚ → ℚ
  | [] => 0
  | x :: xs => xs.foldl max x

theorem le_foldl_max (x : ℚ) (l : List ℚ) : x ≤ l.foldl max x := by
  induction l generalizing x with
  | nil => exact le_refl x
  | cons a l ih => exact le_trans (le_max_left x a) (ih (max x a))

theorem mem_le_foldl_max (a x : ℚ) (l : List ℚ) : a ∈ l → a ≤ l.foldl max x := by
  induction l generalizing x with
  | nil => intro h; cases h
  | cons b l ih =>
      intro h
      rw [List.foldl_cons]
      rcases List.mem_cons.mp h with hh | hh
      · rw [hh]; exact le_trans (le_max_right x b) (le_foldl_max _ _)
      · exact ih (max x b) hh

theorem foldl_max_mem (x : ℚ) (l : List ℚ) : l.foldl max x ∈ x :: l := by
  induction l generalizing x with
  | nil => exact List.mem_singleton.mpr rfl
  | cons b l ih =>
      have h := ih (max x b)
      rcases List.mem_cons.mp h with h | h
      · rcases max_choice x b with hm | hm <;> rw [List.foldl_cons, h, hm]
        · exact List.mem_cons_self _ _
        · exact List.mem_cons_of_mem _ (List.mem_cons_self _ _)
      · exact List.mem_cons_of_mem _ (List.mem_cons_of_mem _ h)

theorem mem_le_listMax (a : ℚ) (l : List ℚ) (h : a ∈ l) : a ≤ listMax l := by
  cases l with
  | nil => cases h
  | cons x xs =>
      rcases List.mem_cons.mp h with h | h
      · rw [h, listMax]; exact le_foldl_max x xs
      · exact mem_le_foldl_max a x xs h

theorem listMax_mem (l : List ℚ) (h : l ≠ []) : listMax l ∈ l := by
  cases l with
  | nil => exact absurd rfl h
  | cons x xs => exact foldl_max_mem x xs

/-! ### The cross validated predictions tutorial (plot-cv-predict)

The tutorial calls cross_val_predict(lr, boston.data, y, cv=10). The
function is scikit-learn code, external to this repository; it is
embedded from its documented semantics, quoted in the tutorial itself:
the data is split by a (non-shuffled) KFold into cv test folds, a fresh
linear model is fitted on the complement of each fold, and each sample
receives the prediction made by the model that did not train on it. The
fitted linear model itself is sealed: it is abstracted as the function
fit from the training index list and a sample index to a prediction. -/

/-- Modelled from the spec: the scikit-learn function cross_val_predict
is library code absent from this repository. Following its documented
behavior (a prediction array the size of y, each entry predicted by the
fold not containing it), it splits range n by a plain KFold into k test
folds and concatenates, fold by fold, the predictions of a model fitted
on each fold complement. With an integer cv argument the folds are
contiguous and in order, so the concatenation is aligned with the sample
order. -/
def cross_val_predict (fit : List Nat → Nat → ℚ) (n k : Nat) : List ℚ :=
  let folds := chunksBySizes (List.range n) (foldSizes n k)
  (folds.map (fun test => test.map (fit (complementFold n test)))).flatten

theorem cross_val_predict_length (fit : List Nat → Nat → ℚ) (n k : Nat)
    (hk : 0 < k) : (cross_val_predict fit n k).length = n := by
  rw [cross_val_predict]
  have hjoin : ∀ folds : List (List Nat),
      ((folds.map (fun test => test.map (fit (complementFold n test)))).flatten).length
        = folds.flatten.length := by
    intro folds
    induction folds with
    | nil => rfl
    | cons t rest ih => simp [ih]
  rw [hjoin, chunksBySizes_flatten_length, foldSizes_sum n k hk]
  simp

/-! ### The nested versus non-nested cross-validation notebook

The calculation cell of the notebook: NUM_TRIALS = 30, iris data,
p_grid over C and gamma, SVC(kernel=rbf), and for each trial i the
splitters KFold(n_splits=4, shuffle=True, random_state=i), a grid
search fitted on the full data for non_nested_scores[i], and
cross_val_score of the same searcher for nested_scores[i]. The numeric
scores of the fitted support vector classifier are owned by the
library and abstracted as an SVCLib oracle; every split fed to the
oracle is computed explicitly. -/

/-- Hidden numeric behavior of the support vector classifier: cvScore p
splits is the mean validation score of SVC with hyperparameters p over
the given validation folds, and testScore p train test is the score on
test of SVC with hyperparameters p fitted on train. -/
structure SVCLib where
  cvScore : ℚ × ℚ → List (List Nat) → ℚ
  testScore : ℚ × ℚ → List Nat → List Nat → ℚ

/-- Number of random trials set by the notebook. -/
def NUM_TRIALS : Nat := 30

/-- Number of samples of the iris data set returned by load_iris. -/
def iris_n : Nat := 150

/-- Values of C in the parameter grid. -/
def p_grid_C : List ℚ := [1, 10, 100]

/-- Values of gamma in the parameter grid. -/
def p_grid_gamma : List ℚ := [1/100, 1/10]

/-- Parameter grid of the notebook, enumerated as the product of the C
values and the gamma values. -/
def p_grid : List (ℚ × ℚ) :=
  p_grid_C.flatMap (fun c => p_grid_gamma.map (fun g => (c, g)))

/-- Inner splitter of trial i: KFold(n_splits=4, shuffle=True,
random_state=i). -/
def inner_cv (i : Nat) : KFold := ⟨4, true, some i⟩

/-- Outer splitter of trial i: KFold(n_splits=4, shuffle=True,
random_state=i). -/
def outer_cv (i : Nat) : KFold := ⟨4, true, some i⟩

/-- Value of the best_score_ attribute after GridSearchCV fits: the
maximum over the grid of the mean validation score under the given
splits. -/
def gridSearchBestScore (lib : SVCLib) (innerSplits : List (List Nat)) : ℚ :=
  listMax (p_grid.map (fun p => lib.cvScore p innerSplits))

/-- First maximizer of f over a list, as grid search resolves ties by
the first best index. -/
def argmaxFirst (f : ℚ × ℚ → ℚ) : List (ℚ × ℚ) → ℚ × ℚ
  | [] => (0, 0)
  | x :: xs => xs.foldl (fun b y => if f b < f y then y else b) x

/-- Hyperparameter combination selected by grid search under the given
validation splits. -/
def gridSearchSelect (lib : SVCLib) (innerSplits : List (List Nat)) : ℚ × ℚ :=
  argmaxFirst (fun p => lib.cvScore p innerSplits) p_grid

/-- Score contributed by one outer fold inside cross_val_score: the
cloned grid search re-splits the outer training indices with its inner
splitter, selects hyperparameters there, refits on the outer training
part and is scored on the outer test part. -/
def nestedFoldScore (lib : SVCLib) (cv : KFold) (perm : Nat → Nat → List Nat)
    (g : Nat) (train test : List Nat) : ℚ :=
  lib.testScore (gridSearchSelect lib (cv.splitsOn perm g train)) train test

/-- Scores returned by cross_val_score(clf, X_iris, y_iris, cv=outer_cv):
one nested fold score per outer test fold. -/
def cross_val_score (lib : SVCLib) (innerCv : KFold) (perm : Nat → Nat → List Nat)
    (g : Nat) (outerSplits : List (List Nat)) : List ℚ :=
  outerSplits.map (fun test =>
    nestedFoldScore lib innerCv perm g (complementFold iris_n test) test)

/-- Value stored into non_nested_scores[i]: clf.best_score_ after the
grid search with the trial inner splitter fits on the iris data. -/
def non_nested_score (lib : SVCLib) (perm : Nat → Nat → List Nat) (g i : Nat) : ℚ :=
  gridSearchBestScore lib ((inner_cv i).splits perm g iris_n)

/-- List of the outer fold scores of trial i, the nested_score variable
of the notebook. -/
def nested_score (lib : SVCLib) (perm : Nat → Nat → List Nat) (g i : Nat) : List ℚ :=
  cross_val_score lib (inner_cv i) perm g ((outer_cv i).splits perm g iris_n)

/-- Contents of the non_nested_scores array after the trial loop. -/
def non_nested_scores (lib : SVCLib) (perm : Nat → Nat → List Nat) (g : Nat) : List ℚ :=
  (List.range NUM_TRIALS).map (non_nested_score lib perm g)

/-- Contents of the nested_scores array after the trial loop: entry i
holds nested_score.mean(). -/
def nested_scores (lib : SVCLib) (perm : Nat → Nat → List Nat) (g : Nat) : List ℚ :=
  (List.range NUM_TRIALS).map (fun i => listMean (nested_score lib perm g i))

/-- Elementwise difference non_nested_scores - nested_scores. -/
def score_difference (lib : SVCLib) (perm : Nat → Nat → List Nat) (g : Nat) : List ℚ :=
  List.zipWith (fun a b => a - b) (non_nested_scores lib perm g) (nested_scores lib perm g)

/-- Degenerate score oracle for instantiating statements at a concrete
input. -/
def constLib : SVCLib := ⟨fun _ _ => 0, fun _ _ _ => 0⟩

/-- Identity permutation oracle for instantiating statements at a
concrete input. -/
def idPerm : Nat → Nat → List Nat := fun _ n => List.range n

/-! ### Execution traces, effects and accesses of the tutorial scripts -/

/-- Script-level steps of a tutorial run, in the granularity the spec
speaks about. -/
inductive Step
  | loadData
  | fitEval (i : Nat)
  | renderChart
  | publishPost
deriving DecidableEq, Repr

/-- Modelled execution order of the notebook: after the imports it loads
the iris data, runs the thirty trials in order, builds the figure and
renders it with py.iplot, and the final cell publishes the post. -/
def notebookTrace : List Step :=
  [Step.loadData] ++ (List.range NUM_TRIALS).map Step.fitEval
    ++ [Step.renderChart, Step.publishPost]

/-- Modelled execution order of the cv-predict tutorial: load the Boston
data, one cross validated fit-predict call, render with py.iplot. -/
def cvPredictTrace : List Step :=
  [Step.loadData, Step.fitEval 0, Step.renderChart]

/-- Calls whose effects leave the running process. -/
inductive ExtCall
  | plotlyIplot
  | pipInstall
  | publisherPublish
deriving DecidableEq, Repr

/-- External-effect calls of the notebook in program order: the py.iplot
render call, then in the final publishing cell a pip install of the
publisher package and the publisher.publish call. -/
def notebookExternalCalls : List ExtCall :=
  [ExtCall.plotlyIplot, ExtCall.pipInstall, ExtCall.publisherPublish]

/-- External-effect calls of the cv-predict tutorial: the single
py.iplot render call. -/
def cvPredictExternalCalls : List ExtCall := [ExtCall.plotlyIplot]

/-- Score arrays of the notebook. -/
inductive ArrName
  | nonNested
  | nested
  | scoreDiff
deriving DecidableEq, Repr

/-- One access to a score array: a write of entry i inside trial i, a
whole-array creation (np.zeros or the subtraction result), or a
whole-array read. -/
inductive Access
  | writeEntry (a : ArrName) (i : Nat)
  | createWhole (a : ArrName)
  | readWhole (a : ArrName)
deriving DecidableEq, Repr

/-- Modelled array accesses of the notebook in program order: the two
np.zeros allocations, the per-trial entry writes, the two whole-array
reads and the creation in the score_difference subtraction, the two
reads by the printed mean and standard deviation, and the three reads
by the plotting cell traces. -/
def accessTrace : List Access :=
  [Access.createWhole ArrName.nonNested, Access.createWhole ArrName.nested]
    ++ (List.range NUM_TRIALS).flatMap
        (fun i => [Access.writeEntry ArrName.nonNested i, Access.writeEntry ArrName.nested i])
    ++ [Access.readWhole ArrName.nonNested, Access.readWhole ArrName.nested,
        Access.createWhole ArrName.scoreDiff,
        Access.readWhole ArrName.scoreDiff, Access.readWhole ArrName.scoreDiff,
        Access.readWhole ArrName.nonNested, Access.readWhole ArrName.nested,
        Access.readWhole ArrName.scoreDiff]

/-- Statement of a script: the library call it performs and whether any
try-except of the script wraps it. Neither tutorial contains an except
clause, so every statement is unhandled. -/
structure Stmt where
  call : Step
  handled : Bool
deriving DecidableEq, Repr

/-- Statements of the notebook, none wrapped by a handler. -/
def notebookStmts : List Stmt := notebookTrace.map (fun s => ⟨s, false⟩)

/-- Statements of the cv-predict tutorial, none wrapped by a handler. -/
def cvPredictStmts : List Stmt := cvPredictTrace.map (fun s => ⟨s, false⟩)

/-- Run a straight-line script under an outcome oracle giving each
library call its result: a raised error is swallowed only by a wrapping
handler, otherwise it ends the run with that error. -/
def runStmts (outcome : Step → Except Nat Unit) : List Stmt → Except Nat Unit
  | [] => Except.ok ()
  | st :: rest =>
    match outcome st.call with
    | Except.error e => if st.handled then runStmts outcome rest else Except.error e
    | Except.ok _ => runStmts outcome rest

theorem runStmts_error_of_unhandled (outcome : Step → Except Nat Unit)
    (stmts : List Stmt) (hall : ∀ st ∈ stmts, st.handled = false)
    (hfail : ∃ st ∈ stmts, ∃ e, outcome st.call = Except.error e) :
    ∃ st ∈ stmts, ∃ e, outcome st.call = Except.error e ∧
      runStmts outcome stmts = Except.error e := by
  induction stmts with
  | nil => rcases hfail with ⟨st, hmem, _⟩; cases hmem
  | cons st0 rest ih =>
      have h0 : st0.handled = false := hall st0 (List.mem_cons_self _ _)
      cases hout : outcome st0.call with
      | error e =>
          refine ⟨st0, List.mem_cons_self _ _, e, hout, ?_⟩
          simp [runStmts, hout, h0]
      | ok u =>
          have hrest : ∃ st ∈ rest, ∃ e, outcome st.call = Except.error e := by
            rcases hfail with ⟨st, hmem, e, he⟩
            rcases List.mem_cons.mp hmem with rfl | hmem2
            · rw [hout] at he; cases he
            · exact ⟨st, hmem2, e, he⟩
          rcases ih (fun st hm => hall st (List.mem_cons_of_mem _ hm)) hrest
            with ⟨st, hmem, e, he, hrun⟩
          refine ⟨st, List.mem_cons_of_mem _ hmem, e, he, ?_⟩
          cases u
          simp [runStmts, hout, hrun]

/-! ### Helper lemmas about the trial arrays -/

theorem range_map_getD (f : Nat → ℚ) (m i : Nat) (h : i < m) :
    ((List.range m).map f).getD i 0 = f i := by
  rw [List.getD_eq_getElem?_getD, List.getElem?_map, List.getElem?_range h]
  rfl

theorem splits_indep_of_seed (cv : KFold) (s : Nat) (h : cv.random_state = some s)
    (perm : Nat → Nat → List Nat) (g g' n : Nat) :
    cv.splits perm g n = cv.splits perm g' n := by
  simp [KFold.splits, KFold.seedUsed, h]

theorem splitsOn_indep_of_seed (cv : KFold) (s : Nat) (h : cv.random_state = some s)
    (perm : Nat → Nat → List Nat) (g g' : Nat) (idx : List Nat) :
    cv.splitsOn perm g idx = cv.splitsOn perm g' idx := by
  simp [KFold.splitsOn, KFold.seedUsed, h]

theorem non_nested_score_indep (lib : SVCLib) (perm : Nat → Nat → List Nat)
    (g1 g2 i : Nat) :
    non_nested_score lib perm g1 i = non_nested_score lib perm g2 i := by
  rw [non_nested_score, non_nested_score, splits_indep_of_seed (inner_cv i) i rfl perm g1 g2]

theorem nested_score_indep (lib : SVCLib) (perm : Nat → Nat → List Nat)
    (g1 g2 i : Nat) :
    nested_score lib perm g1 i = nested_score lib perm g2 i := by
  rw [nested_score, nested_score, cross_val_score, cross_val_score,
    splits_indep_of_seed (outer_cv i) i rfl perm g1 g2]
  refine List.map_congr_left (fun test _ => ?_)
  rw [nestedFoldScore, nestedFoldScore,
    splitsOn_indep_of_seed (inner_cv i) i rfl perm g1 g2]

theorem nested_score_length (lib : SVCLib) (perm : Nat → Nat → List Nat) (g i : Nat) :
    (nested_score lib perm g i).length = 4 := by
  rw [nested_score, cross_val_score, List.length_map, outer_cv, KFold.splits]
  simp [chunksBySizes_length, foldSizes_length]

theorem score_difference_eq_map (lib : SVCLib) (perm : Nat → Nat → List Nat) (g : Nat) :
    score_difference lib perm g
      = (List.range NUM_TRIALS).map
          (fun i => non_nested_score lib perm g i - listMean (nested_score lib perm g i)) := by
  rw [score_difference, non_nested_scores, nested_scores, List.zipWith_map,
    List.zipWith_same]

/-! ### Claims about the trial computation -/

/-- C1: the nested versus non-nested computation is a loop of exactly
NUM_TRIALS = 30 trials, and in trial i the non-nested entry is the
GridSearchCV best score over the grid under the inner splits while the
nested entry composes cross_val_score of that searcher over the outer
splits; nothing else feeds the two score arrays. -/
theorem trial_loop_is_thirty_grid_search_cvscore (lib : SVCLib)
    (perm : Nat → Nat → List Nat) (g : Nat) :
    NUM_TRIALS = 30 ∧
    (non_nested_scores lib perm g).length = NUM_TRIALS ∧
    (nested_scores lib perm g).length = NUM_TRIALS ∧
    (∀ i, i < NUM_TRIALS →
      (non_nested_scores lib perm g).getD i 0
          = gridSearchBestScore lib ((inner_cv i).splits perm g iris_n) ∧
      (nested_scores lib perm g).getD i 0
          = listMean (cross_val_score lib (inner_cv i) perm g
              ((outer_cv i).splits perm g iris_n))) := by
  refine ⟨rfl, by simp [non_nested_scores], by simp [nested_scores], ?_⟩
  intro i hi
  exact ⟨by rw [non_nested_scores, range_map_getD _ _ _ hi]; rfl,
         by rw [nested_scores, range_map_getD _ _ _ hi]; rfl⟩

/-- Witness for the trial loop structure at the degenerate oracle, trial
zero. -/
theorem trial_loop_is_thirty_grid_search_cvscore_witness :
    0 < NUM_TRIALS ∧
    (non_nested_scores constLib idPerm 0).getD 0 0
      = gridSearchBestScore constLib ((inner_cv 0).splits idPerm 0 iris_n) :=
  ⟨by decide,
   ((trial_loop_is_thirty_grid_search_cvscore constLib idPerm 0).2.2.2 0 (by decide)).1⟩

/-- C3: nested cross-validation runs in two loops: the inner splitter
appears only inside the grid search selection of hyperparameters, and
the outer splitter only enumerates the folds of the generalization
estimate, each outer fold scoring on its test part a model selected on
its training part. -/
theorem nested_cv_two_loop_roles (lib : SVCLib) (perm : Nat → Nat → List Nat)
    (g i : Nat) :
    non_nested_score lib perm g i
        = gridSearchBestScore lib ((inner_cv i).splits perm g iris_n) ∧
    nested_score lib perm g i
        = ((outer_cv i).splits perm g iris_n).map (fun test =>
            lib.testScore
              (gridSearchSelect lib
                ((inner_cv i).splitsOn perm g (complementFold iris_n test)))
              (complementFold iris_n test) test) :=
  ⟨rfl, rfl⟩

/-- C4: the grid is exactly the six combinations of C in 1, 10, 100 and
gamma in 1/100, 1/10, and the recorded best score is the maximum of the
validation scores over them, attained on the grid. -/
theorem grid_search_exhaustive_max (lib : SVCLib) (splits : List (List Nat))
    (perm : Nat → Nat → List Nat) (g i : Nat) :
    p_grid = [(1, 1/100), (1, 1/10), (10, 1/100), (10, 1/10), (100, 1/100), (100, 1/10)] ∧
    p_grid.length = 6 ∧
    (∀ p ∈ p_grid, lib.cvScore p splits ≤ gridSearchBestScore lib splits) ∧
    (∃ p ∈ p_grid, gridSearchBestScore lib splits = lib.cvScore p splits) ∧
    non_nested_score lib perm g i
      = gridSearchBestScore lib ((inner_cv i).splits perm g iris_n) := by
  refine ⟨by simp [p_grid, p_grid_C, p_grid_gamma], by simp [p_grid, p_grid_C, p_grid_gamma],
    ?_, ?_, rfl⟩
  · intro p hp
    exact mem_le_listMax _ _ (List.mem_map_of_mem _ hp)
  · have hne : p_grid.map (fun p => lib.cvScore p splits) ≠ [] := by
      simp [p_grid, p_grid_C, p_grid_gamma]
    rcases List.mem_map.mp (listMax_mem _ hne) with ⟨p, hp, hep⟩
    exact ⟨p, hp, hep.symm⟩

/-- Witness for the grid search bound at the degenerate oracle and the
first grid point. -/
theorem grid_search_exhaustive_max_witness :
    ((1 : ℚ), (1 : ℚ)/100) ∈ p_grid ∧
    constLib.cvScore (1, 1/100) [] ≤ gridSearchBestScore constLib [] :=
  ⟨by simp [p_grid, p_grid_C, p_grid_gamma],
   (grid_search_exhaustive_max constLib [] idPerm 0 0).2.2.1 _
     (by simp [p_grid, p_grid_C, p_grid_gamma])⟩

/-- C9: each trial stores into nested_scores[i] the arithmetic mean of
the four outer fold scores returned by cross_val_score, and
score_difference[i] is non_nested_scores[i] minus nested_scores[i]; all
three arrays have length exactly thirty. -/
theorem nested_mean_and_difference (lib : SVCLib) (perm : Nat → Nat → List Nat)
    (g : Nat) :
    (non_nested_scores lib perm g).length = 30 ∧
    (nested_scores lib perm g).length = 30 ∧
    (score_difference lib perm g).length = 30 ∧
    ∀ i, i < 30 →
      (nested_score lib perm g i).length = 4 ∧
      (nested_scores lib perm g).getD i 0 = listMean (nested_score lib perm g i) ∧
      (score_difference lib perm g).getD i 0
        = (non_nested_scores lib perm g).getD i 0 - (nested_scores lib perm g).getD i 0 := by
  refine ⟨by simp [non_nested_scores, NUM_TRIALS], by simp [nested_scores, NUM_TRIALS],
    by rw [score_difference_eq_map]; simp [NUM_TRIALS], ?_⟩
  intro i hi
  have hi2 : i < NUM_TRIALS := hi
  refine ⟨nested_score_length lib perm g i, ?_, ?_⟩
  · rw [nested_scores, range_map_getD _ _ _ hi2]
  · rw [score_difference_eq_map, range_map_getD _ _ _ hi2,
      non_nested_scores, range_map_getD _ _ _ hi2,
      nested_scores, range_map_getD _ _ _ hi2]

/-- Witness for the mean and difference facts at the degenerate oracle,
trial zero. -/
theorem nested_mean_and_difference_witness :
    0 < 30 ∧ (nested_score constLib idPerm 0 0).length = 4 :=
  ⟨by decide, ((nested_mean_and_difference constLib idPerm 0).2.2.2 0 (by decide)).1⟩

/-- C10: the inner and outer splitters of trial i are built with
identical parameters, so their splits of the data coincide, and the
whole thirty-trial loop does not consume the ambient random state: runs
under any two global seeds give identical score arrays. -/
theorem trial_determinism (lib : SVCLib) (perm : Nat → Nat → List Nat)
    (i g g1 g2 : Nat) :
    inner_cv i = KFold.mk 4 true (some i) ∧
    inner_cv i = outer_cv i ∧
    (inner_cv i).splits perm g iris_n = (outer_cv i).splits perm g iris_n ∧
    non_nested_scores lib perm g1 = non_nested_scores lib perm g2 ∧
    nested_scores lib perm g1 = nested_scores lib perm g2 ∧
    score_difference lib perm g1 = score_difference lib perm g2 := by
  refine ⟨rfl, rfl, rfl, ?_, ?_, ?_⟩
  · rw [non_nested_scores, non_nested_scores]
    exact List.map_congr_left (fun j _ => non_nested_score_indep lib perm g1 g2 j)
  · rw [nested_scores, nested_scores]
    exact List.map_congr_left (fun j _ => by rw [nested_score_indep lib perm g1 g2 j])
  · rw [score_difference_eq_map, score_difference_eq_map]
    exact List.map_congr_left (fun j _ => by
      rw [non_nested_score_indep lib perm g1 g2 j, nested_score_indep lib perm g1 g2 j])

/-- C2: the prediction array returned by cross_val_predict has the same
length as the target array y, for every fold count the library accepts
(at least two folds, at most one per sample). -/
theorem cross_val_predict_same_length (fit : List Nat → Nat → ℚ) (y : List ℚ)
    (k : Nat) (hk2 : 2 ≤ k) (_hkn : k ≤ y.length) :
    (cross_val_predict fit y.length k).length = y.length :=
  cross_val_predict_length fit y.length k (by omega)

/-- Witness at the shape of the tutorial run: the Boston target has 506
samples and the call passes cv=10. -/
theorem cross_val_predict_same_length_witness :
    2 ≤ 10 ∧ 10 ≤ (List.replicate 506 (0 : ℚ)).length ∧
    (cross_val_predict (fun _ _ => 0) (List.replicate 506 (0 : ℚ)).length 10).length
      = (List.replicate 506 (0 : ℚ)).length :=
  ⟨by decide, by rw [List.length_replicate]; omega,
   cross_val_predict_same_length (fun _ _ => 0) (List.replicate 506 0) 10 (by decide)
     (by rw [List.length_replicate]; omega)⟩

/-- C5: each tutorial runs as a linear sequence of steps: the data load
is the first step and happens once, each fit-evaluate trial runs
exactly once and only inside the loop, all of them after the load and
before the single chart render; the cv-predict tutorial is literally
load, fit-predict, render. -/
theorem linear_execution_order :
    notebookTrace.count Step.loadData = 1 ∧
    notebookTrace.count Step.renderChart = 1 ∧
    notebookTrace.indexOf Step.loadData = 0 ∧
    (∀ i, i < NUM_TRIALS →
      notebookTrace.count (Step.fitEval i) = 1 ∧
      notebookTrace.indexOf Step.loadData < notebookTrace.indexOf (Step.fitEval i) ∧
      notebookTrace.indexOf (Step.fitEval i) < notebookTrace.indexOf Step.renderChart) ∧
    cvPredictTrace = [Step.loadData, Step.fitEval 0, Step.renderChart] := by
  decide

/-- Witness for the per-trial ordering facts at trial zero. -/
theorem linear_execution_order_witness :
    0 < NUM_TRIALS ∧ notebookTrace.count (Step.fitEval 0) = 1 :=
  ⟨by decide, (linear_execution_order.2.2.2.1 0 (by decide)).1⟩

/-- C6 counterexample: the notebook performs an external-effect call
besides the py.iplot render: its publishing cell runs a pip install
over the network. -/
theorem notebook_external_calls_beyond_iplot :
    ExtCall.pipInstall ∈ notebookExternalCalls ∧
    ExtCall.pipInstall ≠ ExtCall.plotlyIplot := by
  decide

/-- C6 amended: every external-effect operation of the tutorials is a
network call to the plotting or publishing service; the cv-predict
tutorial performs exactly the one py.iplot call, while the notebook
performs the py.iplot call once plus the pip install and the
publisher.publish of its final publishing cell. -/
theorem external_calls_inventory :
    cvPredictExternalCalls = [ExtCall.plotlyIplot] ∧
    notebookExternalCalls.count ExtCall.plotlyIplot = 1 ∧
    notebookExternalCalls
      = [ExtCall.plotlyIplot, ExtCall.pipInstall, ExtCall.publisherPublish] := by
  decide

/-- C7 counterexample: the non_nested_scores array is read as a whole
twice after the loop, by the score_difference subtraction and by its
plot trace, so it is not consumed exactly once. -/
theorem non_nested_scores_read_twice :
    accessTrace.count (Access.readWhole ArrName.nonNested) = 2 ∧ (2 : Nat) ≠ 1 := by
  decide

/-- C7 amended: every entry of non_nested_scores and of nested_scores
is written exactly once, during its own trial; after the loop each of
the two arrays is read as a whole exactly twice (by the
score_difference subtraction and by its plot trace) and
score_difference is read three times (printed mean, printed standard
deviation, bar plot), after which the arrays are discarded. -/
theorem scores_write_once_read_counts :
    (∀ i, i < NUM_TRIALS →
       accessTrace.count (Access.writeEntry ArrName.nonNested i) = 1 ∧
       accessTrace.count (Access.writeEntry ArrName.nested i) = 1) ∧
    accessTrace.count (Access.readWhole ArrName.nonNested) = 2 ∧
    accessTrace.count (Access.readWhole ArrName.nested) = 2 ∧
    accessTrace.count (Access.readWhole ArrName.scoreDiff) = 3 ∧
    accessTrace.count (Access.createWhole ArrName.scoreDiff) = 1 := by
  decide

/-- Witness for the write-once facts at trial zero. -/
theorem scores_write_once_read_counts_witness :
    0 < NUM_TRIALS ∧ accessTrace.count (Access.writeEntry ArrName.nonNested 0) = 1 :=
  ⟨by decide, (scores_write_once_read_counts.1 0 (by decide)).1⟩

/-- C8: neither tutorial wraps any statement in a handler, and whenever
the outcome oracle makes some library call raise, the run of the script
ends with the error of a raising call, unhandled. -/
theorem errors_propagate_unhandled (outcome : Step → Except Nat Unit)
    (stmts : List Stmt) (hs : stmts = notebookStmts ∨ stmts = cvPredictStmts)
    (hfail : ∃ st ∈ stmts, ∃ e, outcome st.call = Except.error e) :
    (∀ st ∈ stmts, st.handled = false) ∧
    ∃ st ∈ stmts, ∃ e, outcome st.call = Except.error e ∧
      runStmts outcome stmts = Except.error e := by
  have hall : ∀ st ∈ stmts, st.handled = false := by
    rcases hs with rfl | rfl <;> · intro st hst
                                   rcases List.mem_map.mp hst with ⟨s, _, rfl⟩
                                   rfl
  exact ⟨hall, runStmts_error_of_unhandled outcome stmts hall hfail⟩

/-- Witness: under an oracle on which the data load raises error 7, the
notebook run terminates with error 7. -/
theorem errors_propagate_unhandled_witness :
    (∀ st ∈ notebookStmts, st.handled = false) ∧
    ∃ st ∈ notebookStmts, ∃ e, (fun _ => Except.error 7 : Step → Except Nat Unit) st.call
        = Except.error e ∧
      runStmts (fun _ => Except.error 7) notebookStmts = Except.error e :=
  errors_propagate_unhandled (fun _ => Except.error 7) notebookStmts (Or.inl rfl)
    ⟨⟨Step.loadData, false⟩, by decide, 7, rfl⟩

end SckitDocs
